import Mathlib

/-!
Verification of the configuration-resolution logic of shuffledns
(`pkg/runner/options.go`).  The `Options` record, the stdin drain and
domain-read branches of `ParseOptions`, and the surrounding control flow
are embedded as pure Lean functions; standard input is modelled as an
explicit stream with a pass counter so that single-pass properties can be
stated.
-/

namespace Shuffledns

/-- The `Options` struct of `pkg/runner/options.go` (lines 16-38), field for
field.  Go strings become `String`, Go ints become `Int`, Go bools `Bool`. -/
structure Options where
  Directory          : String
  Domain             : String
  SubdomainsList     : String
  ResolversFile      : String
  Wordlist           : String
  MassdnsPath        : String
  Output             : String
  Json               : Bool
  Silent             : Bool
  Version            : Bool
  Retries            : Int
  Verbose            : Bool
  NoColor            : Bool
  Threads            : Int
  MassdnsRaw         : String
  WildcardThreads    : Int
  StrictWildcard     : Bool
  WildcardOutputFile : String
  MassDnsCmd         : String
  Stdin              : Bool
deriving Repr, DecidableEq

/-- The state of the process's standard input: the bytes still pending, and
how many read-to-end-of-stream passes (`io.Copy` calls) have consumed it. -/
structure StdinStream where
  content : String
  reads   : Nat
deriving Repr, DecidableEq

/-- A read-to-end-of-stream pass over standard input (`io.Copy(_, os.Stdin)`):
all pending bytes are consumed and the pass counter goes up by one. -/
def consumeAll (st : StdinStream) : StdinStream :=
  { content := "", reads := st.reads + 1 }

/-- Characters stripped by `strings.TrimRight(s, "\r\n")`. -/
def isLineTerm (c : Char) : Bool :=
  c == '\r' || c == '\n'

/-- Go's `strings.TrimRight(s, "\r\n")`: remove every trailing carriage
return or line feed. -/
def trimRightCRLF (s : String) : String :=
  String.mk ((s.data.reverse.dropWhile isLineTerm).reverse)

/-- Observable events of one `ParseOptions` run, in program order. -/
inductive Event where
  | probedStdin (avail : Bool)
  | printedVersion
  | validated (o : Options)
  | drainedStdin
  | readStdin
  | returned (o : Options)
deriving Repr, DecidableEq

/-- Whether an event is the stdin probe (`fileutil.HasStdin()`). -/
def Event.isProbe : Event → Bool
  | .probedStdin _ => true
  | _ => false

/-- Result of one resolution step: the options, the stdin state, and the
events the step produced. -/
structure StepOut where
  opts   : Options
  stdin  : StdinStream
  events : List Event
deriving Repr, DecidableEq

/-- Lines 106-111 of `options.go`: if stdin was detected and all of
`Domain`, `ResolversFile`, `Wordlist` came via flags, drain stdin to
end-of-stream and set `Stdin` to false. -/
def drainStep (o : Options) (st : StdinStream) : StepOut :=
  if o.Stdin && o.Domain != "" && o.ResolversFile != "" && o.Wordlist != "" then
    ⟨{ o with Stdin := false }, consumeAll st, [Event.drainedStdin]⟩
  else
    ⟨o, st, []⟩

/-- Lines 113-118 of `options.go`: if stdin is (still) available and
`Wordlist` is non-empty, read all of stdin and assign the content, trimmed
of trailing CR/LF, to `Domain`.  The source does not test `Domain` here. -/
def readDomainStep (o : Options) (st : StdinStream) : StepOut :=
  if o.Stdin && o.Wordlist != "" then
    ⟨{ o with Domain := trimRightCRLF st.content }, consumeAll st, [Event.readStdin]⟩
  else
    ⟨o, st, []⟩

/-- The stdin-reconciliation step of `ParseOptions` (lines 106-118): the
drain branch, then the domain-read branch, in source order. -/
def resolveStdin (o : Options) (st : StdinStream) : StepOut :=
  let p := drainStep o st
  let q := readDomainStep p.opts p.stdin
  ⟨q.opts, q.stdin, p.events ++ q.events⟩

/-- Modelled from the spec: `validateOptions` lives in
`pkg/runner/validate.go`, which is not under `src/`.  Following the error
taxonomy and the testable property that validation fails identifying all
modes as unsatisfied exactly for a run with none of the domain, list and
raw-input values set and no stdin available, it reports an
insufficient-input error when `Domain`, `SubdomainsList` and `MassdnsRaw`
are all empty and stdin is unavailable, and succeeds otherwise. -/
def validateOptions (o : Options) : Except String Unit :=
  if o.Domain == "" && o.SubdomainsList == "" && o.MassdnsRaw == "" && !o.Stdin then
    Except.error "no input list provided"
  else
    Except.ok ()

/-- Outcome of a `ParseOptions` run: `os.Exit(0)` after printing the
version, `gologger.Fatal` on a validation error, or the returned options. -/
inductive ParseResult where
  | versionExit
  | validationFailure (msg : String)
  | ok (o : Options)
deriving Repr, DecidableEq

/-- Whether a run ended in a validation failure. -/
def ParseResult.isFailure : ParseResult → Bool
  | .validationFailure _ => true
  | _ => false

/-- The `Domain` of the returned configuration, when the run returned one. -/
def ParseResult.finalDomain : ParseResult → Option String
  | .ok o => some o.Domain
  | _ => none

/-- Inputs fixed before a run: the options as filled in by flag parsing
(`flagSet.Parse`), whether `fileutil.HasStdin()` reports piped input, and
the bytes pending on standard input. -/
structure Env where
  flags        : Options
  stdinAvail   : Bool
  stdinContent : String
deriving Repr, DecidableEq

/-- A completed run: its outcome, the final stdin state, and its trace. -/
structure RunResult where
  result : ParseResult
  stdin  : StdinStream
  trace  : List Event
deriving Repr, DecidableEq

/-- The configuration right after flag parsing and the stdin probe
(line 87 of `options.go`): the flag values with `Stdin` set to the probe
result. -/
def preOptions (env : Env) : Options :=
  { env.flags with Stdin := env.stdinAvail }

/-- `ParseOptions` (lines 41-121 of `options.go`) from the stdin probe on:
record `HasStdin()` in `Stdin` (line 87), print the version and exit if
`Version` is set (lines 95-98), validate (line 101, fatal on error), then
reconcile stdin (lines 106-118) and return the options. -/
def parseOptions (env : Env) : RunResult :=
  let o := preOptions env
  let st : StdinStream := { content := env.stdinContent, reads := 0 }
  if o.Version then
    ⟨.versionExit, st, [.probedStdin env.stdinAvail, .printedVersion]⟩
  else
    match validateOptions o with
    | .error msg =>
        ⟨.validationFailure msg, st, [.probedStdin env.stdinAvail, .validated o]⟩
    | .ok _ =>
        let r := resolveStdin o st
        ⟨.ok r.opts, r.stdin,
          [.probedStdin env.stdinAvail, .validated o] ++ r.events ++ [.returned r.opts]⟩

/-- The probed configuration keeps the flag-supplied `Version`. -/
theorem preOptions_Version (env : Env) : (preOptions env).Version = env.flags.Version := rfl

/-- The probed configuration records the probe result in `Stdin`. -/
theorem preOptions_Stdin (env : Env) : (preOptions env).Stdin = env.stdinAvail := rfl

/-- The `Domain` values of the configurations handed to the validator
during a run, in order. -/
def validatedDomains (r : RunResult) : List String :=
  r.trace.filterMap fun e =>
    match e with
    | .validated o => some o.Domain
    | _ => none

/-- The options record as flag parsing leaves it when no flag is given:
string flags default to the empty string, boolean flags to false, and the
numeric defaults are Threads 10000, Retries 5, WildcardThreads 25
(lines 47-82 of `options.go`). -/
def defaultOptions : Options where
  Directory := ""
  Domain := ""
  SubdomainsList := ""
  ResolversFile := ""
  Wordlist := ""
  MassdnsPath := ""
  Output := ""
  Json := false
  Silent := false
  Version := false
  Retries := 5
  Verbose := false
  NoColor := false
  Threads := 10000
  MassdnsRaw := ""
  WildcardThreads := 25
  StrictWildcard := false
  WildcardOutputFile := ""
  MassDnsCmd := ""
  Stdin := false

/-! Helper lemmas about `trimRightCRLF` and the two resolution branches. -/

/-- Unfolding: the characters of the trimmed string are the source
characters with line terminators dropped from the right. -/
theorem trimRightCRLF_data (s : String) :
    (trimRightCRLF s).data = s.data.rdropWhile isLineTerm := rfl

/-- A list splits into its right-trimmed part and the trimmed-off suffix. -/
theorem rdropWhile_append_rtakeWhile (p : Char → Bool) (l : List Char) :
    l.rdropWhile p ++ l.rtakeWhile p = l := by
  rw [List.rdropWhile, List.rtakeWhile, ← List.reverse_append,
    List.takeWhile_append_dropWhile, List.reverse_reverse]

/-- The right-trimmed string never ends in a character of the trim set. -/
theorem trimRightCRLF_getLast_not (s : String) (c : Char)
    (hc : (trimRightCRLF s).data.getLast? = some c) : isLineTerm c = false := by
  rw [trimRightCRLF_data] at hc
  have hne : s.data.rdropWhile isLineTerm ≠ [] := by
    intro h
    rw [h] at hc
    simp at hc
  have hlast := List.rdropWhile_last_not isLineTerm s.data hne
  rw [List.getLast?_eq_getLast _ hne] at hc
  have : c = (s.data.rdropWhile isLineTerm).getLast hne := by
    exact (Option.some.injEq _ _ ▸ hc).symm
  rw [this]
  exact Bool.not_eq_true _ ▸ hlast

/-- Full characterisation of `trimRightCRLF`: the result is a prefix of the
input, the removed suffix is all carriage returns and line feeds, and the
result does not end in a carriage return or line feed. -/
theorem trimRightCRLF_spec (s : String) :
    s.data = (trimRightCRLF s).data ++ s.data.rtakeWhile isLineTerm ∧
    (∀ c ∈ s.data.rtakeWhile isLineTerm, isLineTerm c = true) ∧
    ∀ c, (trimRightCRLF s).data.getLast? = some c → isLineTerm c = false := by
  refine ⟨?_, ?_, trimRightCRLF_getLast_not s⟩
  · rw [trimRightCRLF_data, rdropWhile_append_rtakeWhile]
  · intro c hc
    exact List.mem_rtakeWhile_imp hc

/-- Trimming the empty string yields the empty string. -/
theorem trimRightCRLF_empty : trimRightCRLF "" = "" := rfl

/-- Trimming a string of only carriage returns and line feeds yields the
empty string. -/
theorem trimRightCRLF_all_lineTerm (s : String)
    (h : ∀ c ∈ s.data, isLineTerm c = true) : trimRightCRLF s = "" := by
  have : (trimRightCRLF s).data = [] := by
    rw [trimRightCRLF_data]
    exact List.rdropWhile_eq_nil_iff.mpr h
  cases hs : trimRightCRLF s with
  | mk data => rw [hs] at this; simp at this; rw [this]

/-- The drain branch fires exactly on its source condition. -/
theorem drainStep_pos (o : Options) (st : StdinStream)
    (h1 : o.Stdin = true) (h2 : o.Domain ≠ "") (h3 : o.ResolversFile ≠ "")
    (h4 : o.Wordlist ≠ "") :
    drainStep o st = ⟨{ o with Stdin := false }, consumeAll st, [Event.drainedStdin]⟩ := by
  simp [drainStep, h1, h2, h3, h4]

/-- The drain branch is skipped when the target domain flag is absent. -/
theorem drainStep_no_domain (o : Options) (st : StdinStream)
    (h : o.Domain = "") : drainStep o st = ⟨o, st, []⟩ := by
  simp [drainStep, h]

/-- The drain branch is skipped when the resolver-list flag is absent. -/
theorem drainStep_no_resolvers (o : Options) (st : StdinStream)
    (h : o.ResolversFile = "") : drainStep o st = ⟨o, st, []⟩ := by
  simp [drainStep, h]

/-- The read branch fires exactly on its source condition. -/
theorem readDomainStep_pos (o : Options) (st : StdinStream)
    (h1 : o.Stdin = true) (h2 : o.Wordlist ≠ "") :
    readDomainStep o st =
      ⟨{ o with Domain := trimRightCRLF st.content }, consumeAll st, [Event.readStdin]⟩ := by
  simp [readDomainStep, h1, h2]

/-- After drain-and-disable, the read branch cannot fire. -/
theorem readDomainStep_no_stdin (o : Options) (st : StdinStream)
    (h : o.Stdin = false) : readDomainStep o st = ⟨o, st, []⟩ := by
  simp [readDomainStep, h]

/-- Resolution when all three input flags are present and stdin is piped:
drain, disable stdin, keep the flag values. -/
theorem resolveStdin_all_flags (o : Options) (st : StdinStream)
    (h1 : o.Stdin = true) (h2 : o.Domain ≠ "") (h3 : o.ResolversFile ≠ "")
    (h4 : o.Wordlist ≠ "") :
    resolveStdin o st = ⟨{ o with Stdin := false }, consumeAll st, [Event.drainedStdin]⟩ := by
  rw [resolveStdin, drainStep_pos o st h1 h2 h3 h4]
  rw [readDomainStep_no_stdin _ _ rfl]
  rfl

/-- Resolution when the domain is to come from stdin: the drain branch is
skipped and the read branch assigns the trimmed stdin content. -/
theorem resolveStdin_read (o : Options) (st : StdinStream)
    (h1 : o.Stdin = true) (h2 : o.Wordlist ≠ "") (h3 : o.Domain = "") :
    resolveStdin o st =
      ⟨{ o with Domain := trimRightCRLF st.content }, consumeAll st, [Event.readStdin]⟩ := by
  rw [resolveStdin, drainStep_no_domain o st h3, readDomainStep_pos o st h1 h2]
  rfl

/-- The drain branch is skipped when stdin was not detected. -/
theorem drainStep_not_avail (o : Options) (st : StdinStream)
    (h : o.Stdin = false) : drainStep o st = ⟨o, st, []⟩ := by
  simp [drainStep, h]

/-- Resolution is the identity when stdin was not detected. -/
theorem resolveStdin_no_stdin (o : Options) (st : StdinStream)
    (h : o.Stdin = false) : resolveStdin o st = ⟨o, st, []⟩ := by
  simp [resolveStdin, drainStep, readDomainStep, h]

/-- Resolution is the identity when the wordlist flag is empty. -/
theorem resolveStdin_no_wordlist (o : Options) (st : StdinStream)
    (h : o.Wordlist = "") : resolveStdin o st = ⟨o, st, []⟩ := by
  simp [resolveStdin, drainStep, readDomainStep, h]

/-! Claim C1. -/

/-- Flag state for the C1 counterexample: `-d a.com -w wordlist.txt`, no
resolver flag, stdin detected. -/
def c1Opts : Options :=
  { defaultOptions with Stdin := true, Domain := "a.com", Wordlist := "wordlist.txt" }

/-- Piped bytes for the C1 counterexample. -/
def c1Stream : StdinStream := { content := "piped.com", reads := 0 }

/-- Claim C1 is false as stated: with the domain flag "a.com" and the
wordlist flag set but the resolver flag empty, the read branch still fires
(its condition does not test Domain) and piped input "piped.com"
overwrites the flag-supplied domain. -/
theorem C1_counterexample :
    c1Opts.Domain = "a.com" ∧
    (resolveStdin c1Opts c1Stream).opts.Domain = "piped.com" ∧
    ¬(resolveStdin c1Opts c1Stream).opts.Domain = c1Opts.Domain := by
  decide

/-- Claim C1 (amended): the domain-read branch does not require Domain to
be empty; a non-empty flag-supplied Domain survives resolution when stdin
is unavailable, or the wordlist flag is empty, or the resolver and
wordlist flags are both supplied (so the drain branch disables stdin
first) — but not in general. -/
theorem C1_flag_domain_preserved (o : Options) (st : StdinStream)
    (hd : o.Domain ≠ "")
    (h : o.Stdin = false ∨ o.Wordlist = "" ∨ (o.ResolversFile ≠ "" ∧ o.Wordlist ≠ "")) :
    (resolveStdin o st).opts.Domain = o.Domain := by
  rcases h with h | h | ⟨hr, hw⟩
  · rw [resolveStdin_no_stdin o st h]
  · rw [resolveStdin_no_wordlist o st h]
  · cases hs : o.Stdin with
    | false => rw [resolveStdin_no_stdin o st hs]
    | true => rw [resolveStdin_all_flags o st hs hd hr hw]

/-- Flag state for the C1 witness: all three input flags supplied. -/
def c1wOpts : Options :=
  { defaultOptions with
      Stdin := true
      Domain := "a.com"
      ResolversFile := "resolvers.txt"
      Wordlist := "wordlist.txt" }

/-- Piped bytes for the C1 witness. -/
def c1wStream : StdinStream := { content := "ignored.com", reads := 0 }

/-- Witness for the amended C1 at a concrete input. -/
theorem C1_flag_domain_preserved_witness :
    (c1wOpts.Domain ≠ "" ∧
      (c1wOpts.Stdin = false ∨ c1wOpts.Wordlist = "" ∨
        (c1wOpts.ResolversFile ≠ "" ∧ c1wOpts.Wordlist ≠ ""))) ∧
    (resolveStdin c1wOpts c1wStream).opts.Domain = c1wOpts.Domain :=
  ⟨⟨by decide, Or.inr (Or.inr ⟨by decide, by decide⟩)⟩,
    C1_flag_domain_preserved c1wOpts c1wStream (by decide)
      (Or.inr (Or.inr ⟨by decide, by decide⟩))⟩

/-! Claim C3. -/

/-- Claim C3: when the domain, resolver and wordlist flags are all
non-empty and stdin is available, resolution drains all pending stdin
bytes in one read-to-end pass, sets Stdin to false, and the resolved
Domain is the flag value. -/
theorem C3_all_flags_drain (o : Options) (st : StdinStream)
    (h1 : o.Stdin = true) (h2 : o.Domain ≠ "") (h3 : o.ResolversFile ≠ "")
    (h4 : o.Wordlist ≠ "") :
    (resolveStdin o st).opts.Domain = o.Domain ∧
    (resolveStdin o st).opts.Stdin = false ∧
    (resolveStdin o st).stdin.content = "" ∧
    (resolveStdin o st).stdin.reads = st.reads + 1 ∧
    (resolveStdin o st).events = [Event.drainedStdin] := by
  rw [resolveStdin_all_flags o st h1 h2 h3 h4]
  exact ⟨rfl, rfl, rfl, rfl, rfl⟩

/-- Flag state for the C3 witness: all three input flags supplied. -/
def c3Opts : Options :=
  { defaultOptions with
      Stdin := true
      Domain := "example.com"
      ResolversFile := "resolvers.txt"
      Wordlist := "wordlist.txt" }

/-- Piped bytes for the C3 witness. -/
def c3Stream : StdinStream := { content := "ignored.com", reads := 0 }

/-- Witness for C3 at a concrete input. -/
theorem C3_all_flags_drain_witness :
    (c3Opts.Stdin = true ∧ c3Opts.Domain ≠ "" ∧ c3Opts.ResolversFile ≠ "" ∧
      c3Opts.Wordlist ≠ "") ∧
    ((resolveStdin c3Opts c3Stream).opts.Domain = c3Opts.Domain ∧
      (resolveStdin c3Opts c3Stream).opts.Stdin = false ∧
      (resolveStdin c3Opts c3Stream).stdin.content = "" ∧
      (resolveStdin c3Opts c3Stream).stdin.reads = c3Stream.reads + 1 ∧
      (resolveStdin c3Opts c3Stream).events = [Event.drainedStdin]) :=
  ⟨⟨rfl, by decide, by decide, by decide⟩,
    C3_all_flags_drain c3Opts c3Stream rfl (by decide) (by decide) (by decide)⟩

/-! Claim C5. -/

/-- Claim C5: when the domain is taken from stdin (stdin available,
wordlist flag non-empty, domain flag empty), the resolved Domain is the
entire stdin content with all trailing CR/LF stripped: it equals
`trimRightCRLF` of the content, the content splits as the Domain followed
by a suffix of only CR/LF characters, and the Domain does not end in a CR
or LF. -/
theorem C5_stdin_domain_trimmed (o : Options) (st : StdinStream)
    (h1 : o.Stdin = true) (h2 : o.Wordlist ≠ "") (h3 : o.Domain = "") :
    (resolveStdin o st).opts.Domain = trimRightCRLF st.content ∧
    st.content.data =
      (resolveStdin o st).opts.Domain.data ++ st.content.data.rtakeWhile isLineTerm ∧
    (∀ c ∈ st.content.data.rtakeWhile isLineTerm, isLineTerm c = true) ∧
    (∀ c, (resolveStdin o st).opts.Domain.data.getLast? = some c → isLineTerm c = false) := by
  rw [resolveStdin_read o st h1 h2 h3]
  have hspec := trimRightCRLF_spec st.content
  exact ⟨rfl, hspec.1, hspec.2.1, hspec.2.2⟩

/-- Flag state for the C5 witness: `-w wordlist.txt`, no domain flag,
stdin detected. -/
def c5Opts : Options :=
  { defaultOptions with Stdin := true, Wordlist := "wordlist.txt" }

/-- Piped bytes for the C5 witness. -/
def c5Stream : StdinStream := { content := "example.com\r\n", reads := 0 }

/-- Witness for C5 at the concrete piped input of the claim: the resolved
Domain is "example.com". -/
theorem C5_stdin_domain_trimmed_witness :
    (c5Opts.Stdin = true ∧ c5Opts.Wordlist ≠ "" ∧ c5Opts.Domain = "") ∧
    (resolveStdin c5Opts c5Stream).opts.Domain = "example.com" ∧
    ((resolveStdin c5Opts c5Stream).opts.Domain = trimRightCRLF c5Stream.content ∧
      c5Stream.content.data =
        (resolveStdin c5Opts c5Stream).opts.Domain.data ++
          c5Stream.content.data.rtakeWhile isLineTerm ∧
      (∀ c ∈ c5Stream.content.data.rtakeWhile isLineTerm, isLineTerm c = true) ∧
      (∀ c, (resolveStdin c5Opts c5Stream).opts.Domain.data.getLast? = some c →
        isLineTerm c = false)) :=
  ⟨⟨rfl, by decide, rfl⟩, by decide,
    C5_stdin_domain_trimmed c5Opts c5Stream rfl (by decide) rfl⟩

/-! Claim C6. -/

/-- Flag state for the C6 counterexample and witness: `-w wordlist.txt`,
no domain flag, stdin detected. -/
def c6Opts : Options :=
  { defaultOptions with Stdin := true, Wordlist := "wordlist.txt" }

/-- Piped bytes for the C6 counterexample: a space then a newline. -/
def c6Stream : StdinStream := { content := " \n", reads := 0 }

/-- Claim C6 is false as stated: for piped input of a space followed by a
newline, only the newline is stripped, and the resolved configuration
carries Domain " " — a non-empty string of only whitespace. -/
theorem C6_counterexample :
    (resolveStdin c6Opts c6Stream).opts.Domain = " " ∧
    (resolveStdin c6Opts c6Stream).opts.Domain ≠ "" ∧
    ∀ c ∈ (resolveStdin c6Opts c6Stream).opts.Domain.data, c.isWhitespace = true := by
  decide

/-- Claim C6 (amended): only trailing carriage returns and line feeds are
stripped; a stdin value consisting solely of CR/LF characters resolves to
an empty Domain, while other whitespace is preserved. -/
theorem C6_crlf_only_absent (o : Options) (st : StdinStream)
    (h1 : o.Stdin = true) (h2 : o.Wordlist ≠ "") (h3 : o.Domain = "")
    (hall : ∀ c ∈ st.content.data, isLineTerm c = true) :
    (resolveStdin o st).opts.Domain = "" := by
  rw [resolveStdin_read o st h1 h2 h3]
  exact trimRightCRLF_all_lineTerm st.content hall

/-- Piped bytes for the C6 witness: only CR and LF characters. -/
def c6wStream : StdinStream := { content := "\r\n\n", reads := 0 }

/-- Witness for the amended C6 at a concrete input. -/
theorem C6_crlf_only_absent_witness :
    (c6Opts.Stdin = true ∧ c6Opts.Wordlist ≠ "" ∧ c6Opts.Domain = "" ∧
      (∀ c ∈ c6wStream.content.data, isLineTerm c = true)) ∧
    (resolveStdin c6Opts c6wStream).opts.Domain = "" :=
  ⟨⟨rfl, by decide, rfl, by decide⟩,
    C6_crlf_only_absent c6Opts c6wStream rfl (by decide) rfl (by decide)⟩

/-! Claim C10. -/

/-- Claim C10: the stdin-reconciliation step mutates only the Domain and
Stdin fields; every other field of the configuration keeps the value it
had after flag parsing. -/
theorem C10_frame (o : Options) (st : StdinStream) :
    (resolveStdin o st).opts.SubdomainsList = o.SubdomainsList ∧
    (resolveStdin o st).opts.ResolversFile = o.ResolversFile ∧
    (resolveStdin o st).opts.Wordlist = o.Wordlist ∧
    (resolveStdin o st).opts.MassdnsRaw = o.MassdnsRaw ∧
    (resolveStdin o st).opts.MassdnsPath = o.MassdnsPath ∧
    (resolveStdin o st).opts.Output = o.Output ∧
    (resolveStdin o st).opts.Directory = o.Directory ∧
    (resolveStdin o st).opts.Json = o.Json ∧
    (resolveStdin o st).opts.Silent = o.Silent ∧
    (resolveStdin o st).opts.Version = o.Version ∧
    (resolveStdin o st).opts.Retries = o.Retries ∧
    (resolveStdin o st).opts.Verbose = o.Verbose ∧
    (resolveStdin o st).opts.NoColor = o.NoColor ∧
    (resolveStdin o st).opts.Threads = o.Threads ∧
    (resolveStdin o st).opts.WildcardThreads = o.WildcardThreads ∧
    (resolveStdin o st).opts.StrictWildcard = o.StrictWildcard ∧
    (resolveStdin o st).opts.WildcardOutputFile = o.WildcardOutputFile ∧
    (resolveStdin o st).opts.MassDnsCmd = o.MassDnsCmd := by
  simp only [resolveStdin, drainStep, readDomainStep]
  split <;> split <;> simp

/-! Helper lemmas about the full `parseOptions` pipeline. -/

/-- Whether an event is a validator invocation. -/
def Event.isValidated : Event → Bool
  | .validated _ => true
  | _ => false

/-- Whether an event is the stdin domain read. -/
def Event.isRead : Event → Bool
  | .readStdin => true
  | _ => false

/-- Unfolding `parseOptions` when the version flag is set. -/
theorem parseOptions_version (env : Env) (h : env.flags.Version = true) :
    parseOptions env =
      ⟨ParseResult.versionExit, ⟨env.stdinContent, 0⟩,
        [Event.probedStdin env.stdinAvail, Event.printedVersion]⟩ := by
  simp [parseOptions, preOptions_Version, h]

/-- Unfolding `parseOptions` when validation fails. -/
theorem parseOptions_err (env : Env) (hv : env.flags.Version = false) (msg : String)
    (herr : validateOptions (preOptions env) = Except.error msg) :
    parseOptions env =
      ⟨ParseResult.validationFailure msg, ⟨env.stdinContent, 0⟩,
        [Event.probedStdin env.stdinAvail,
          Event.validated (preOptions env)]⟩ := by
  simp [parseOptions, preOptions_Version, hv, herr]

/-- Unfolding `parseOptions` when validation succeeds. -/
theorem parseOptions_ok (env : Env) (hv : env.flags.Version = false)
    (hok : validateOptions (preOptions env) = Except.ok ()) :
    parseOptions env =
      ⟨ParseResult.ok
          (resolveStdin (preOptions env) ⟨env.stdinContent, 0⟩).opts,
        (resolveStdin (preOptions env) ⟨env.stdinContent, 0⟩).stdin,
        [Event.probedStdin env.stdinAvail,
          Event.validated (preOptions env)] ++
          (resolveStdin (preOptions env) ⟨env.stdinContent, 0⟩).events ++
          [Event.returned
            (resolveStdin (preOptions env)
              ⟨env.stdinContent, 0⟩).opts]⟩ := by
  simp [parseOptions, preOptions_Version, hv, hok]

/-- The validator either succeeds or reports the insufficient-input error. -/
theorem validateOptions_cases (o : Options) :
    validateOptions o = Except.ok () ∨
      validateOptions o = Except.error "no input list provided" := by
  unfold validateOptions
  split
  · right; rfl
  · left; rfl

/-- The validator accepts any configuration with stdin available. -/
theorem validateOptions_ok_of_stdin (o : Options) (h : o.Stdin = true) :
    validateOptions o = Except.ok () := by
  simp [validateOptions, h]

/-- Exhaustive case split for the resolution step: it leaves everything
unchanged, or drains, or reads the domain — never more than one pass. -/
theorem resolveStdin_cases (o : Options) (st : StdinStream) :
    resolveStdin o st = ⟨o, st, []⟩ ∨
    resolveStdin o st = ⟨{ o with Stdin := false }, consumeAll st, [Event.drainedStdin]⟩ ∨
    resolveStdin o st =
      ⟨{ o with Domain := trimRightCRLF st.content }, consumeAll st, [Event.readStdin]⟩ := by
  simp only [resolveStdin, drainStep, readDomainStep]
  split
  · split
    · simp_all
    · right; left; simp
  · split
    · right; right; simp
    · left; simp

/-! Claim C2. -/

/-- Environment for the C2 counterexample: `-w wordlist.txt`, no domain
flag, and the domain piped on stdin. -/
def c2Env : Env where
  flags := { defaultOptions with Wordlist := "wordlist.txt" }
  stdinAvail := true
  stdinContent := "example.com\r\n"

/-- Claim C2 is false as stated: in a run whose domain arrives on stdin,
the validator is invoked on a configuration whose Domain is still empty,
and the stdin read happens only after the validation event, so the
configuration the validator checks does not contain the stdin-supplied
domain "example.com". -/
theorem C2_counterexample :
    validatedDomains (parseOptions c2Env) = [""] ∧
    (parseOptions c2Env).result.finalDomain = some "example.com" ∧
    Event.readStdin ∈ (parseOptions c2Env).trace ∧
    (parseOptions c2Env).trace.findIdx Event.isValidated <
      (parseOptions c2Env).trace.findIdx Event.isRead := by
  decide

/-- Claim C2 (amended): validation runs before input resolution — in
every non-version run the trace starts with the stdin probe immediately
followed by a validation of the flag-parsed configuration (its Domain is
still the flag value), and any drain or read of stdin comes later. -/
theorem C2_validation_before_resolution (env : Env)
    (hv : env.flags.Version = false) :
    ∃ rest, (parseOptions env).trace =
      Event.probedStdin env.stdinAvail ::
        Event.validated (preOptions env) :: rest := by
  rcases validateOptions_cases (preOptions env) with hok | herr
  · refine ⟨(resolveStdin (preOptions env)
        ⟨env.stdinContent, 0⟩).events ++
      [Event.returned
        (resolveStdin (preOptions env)
          ⟨env.stdinContent, 0⟩).opts], ?_⟩
    rw [parseOptions_ok env hv hok]
    simp
  · exact ⟨[], by rw [parseOptions_err env hv _ herr]⟩

/-- Witness for the amended C2 at a concrete input. -/
theorem C2_validation_before_resolution_witness :
    c2Env.flags.Version = false ∧
    ∃ rest, (parseOptions c2Env).trace =
      Event.probedStdin c2Env.stdinAvail ::
        Event.validated { c2Env.flags with Stdin := c2Env.stdinAvail } :: rest :=
  ⟨rfl, C2_validation_before_resolution c2Env rfl⟩

/-! Claim C4. -/

/-- Environment for C4: `-w wordlist.txt`, no domain flag, stdin
available but empty. -/
def c4Env : Env where
  flags := { defaultOptions with Wordlist := "wordlist.txt" }
  stdinAvail := true
  stdinContent := ""

/-- Claim C4 is false on the code as modelled: with the wordlist flag set,
no domain flag, stdin available and an empty stdin stream, the run does
not fail — it returns a configuration with an empty Domain. -/
theorem C4_counterexample :
    (parseOptions c4Env).result.isFailure = false ∧
    (parseOptions c4Env).result.finalDomain = some "" ∧
    Event.readStdin ∈ (parseOptions c4Env).trace := by
  decide

/-- Claim C4 (amended): for a run with the wordlist flag set, no domain
flag, stdin available and an empty stdin stream, validation passes (it
runs before stdin is read, and stdin availability counts as an input
source), and the run returns a configuration whose Domain is empty — the
empty stdin stream is silently accepted rather than rejected. -/
theorem C4_empty_stdin_accepted (env : Env)
    (hv : env.flags.Version = false) (hd : env.flags.Domain = "")
    (hw : env.flags.Wordlist ≠ "") (ha : env.stdinAvail = true)
    (hc : env.stdinContent = "") :
    (parseOptions env).result =
      ParseResult.ok { env.flags with Stdin := true, Domain := "" } := by
  have hok : validateOptions (preOptions env) = Except.ok () :=
    validateOptions_ok_of_stdin _ (by rw [preOptions_Stdin]; exact ha)
  rw [parseOptions_ok env hv hok]
  rw [resolveStdin_read (preOptions env) ⟨env.stdinContent, 0⟩
      (by rw [preOptions_Stdin]; exact ha) hw hd]
  show ParseResult.ok _ = ParseResult.ok _
  simp only [preOptions]
  simp [ha, hc, trimRightCRLF_empty]

/-- Witness for the amended C4 at a concrete input. -/
theorem C4_empty_stdin_accepted_witness :
    (c4Env.flags.Version = false ∧ c4Env.flags.Domain = "" ∧
      c4Env.flags.Wordlist ≠ "" ∧ c4Env.stdinAvail = true ∧ c4Env.stdinContent = "") ∧
    (parseOptions c4Env).result =
      ParseResult.ok { c4Env.flags with Stdin := true, Domain := "" } :=
  ⟨⟨rfl, rfl, by decide, rfl, rfl⟩,
    C4_empty_stdin_accepted c4Env rfl rfl (by decide) rfl rfl⟩

/-! Claim C7. -/

/-- Claim C7: standard input is probed exactly once per run, the drain
branch and the domain-read branch are mutually exclusive, and stdin is
consumed in at most one read-to-end pass. -/
theorem C7_single_pass (env : Env) :
    (parseOptions env).trace.countP Event.isProbe = 1 ∧
    (parseOptions env).stdin.reads ≤ 1 ∧
    ¬(Event.drainedStdin ∈ (parseOptions env).trace ∧
      Event.readStdin ∈ (parseOptions env).trace) := by
  cases hv : env.flags.Version with
  | true =>
    rw [parseOptions_version env hv]
    refine ⟨by simp [Event.isProbe], by simp, by simp⟩
  | false =>
    rcases validateOptions_cases (preOptions env) with hok | herr
    · rw [parseOptions_ok env hv hok]
      rcases resolveStdin_cases (preOptions env)
          ⟨env.stdinContent, 0⟩ with hr | hr | hr <;>
        rw [hr] <;>
        refine ⟨by simp [Event.isProbe], by simp [consumeAll], by simp⟩
    · rw [parseOptions_err env hv _ herr]
      refine ⟨by simp [Event.isProbe], by simp, by simp⟩

/-! Claim C8. -/

/-- Claim C8: when the version flag is set the run exits right after
printing the version — the validator is never invoked, stdin is neither
drained nor read, and the pending stdin bytes are untouched. -/
theorem C8_version_exits_first (env : Env) (h : env.flags.Version = true) :
    (parseOptions env).result = ParseResult.versionExit ∧
    (parseOptions env).stdin.content = env.stdinContent ∧
    (parseOptions env).stdin.reads = 0 ∧
    (parseOptions env).trace = [Event.probedStdin env.stdinAvail, Event.printedVersion] ∧
    (∀ o, Event.validated o ∉ (parseOptions env).trace) ∧
    Event.drainedStdin ∉ (parseOptions env).trace ∧
    Event.readStdin ∉ (parseOptions env).trace := by
  rw [parseOptions_version env h]
  exact ⟨rfl, rfl, rfl, rfl, fun o => by simp, by simp, by simp⟩

/-- Environment for the C8 witness: `--version` with bytes pending on
stdin. -/
def c8Env : Env where
  flags := { defaultOptions with Version := true }
  stdinAvail := true
  stdinContent := "example.com"

/-- Witness for C8 at a concrete input. -/
theorem C8_version_exits_first_witness :
    c8Env.flags.Version = true ∧
    ((parseOptions c8Env).result = ParseResult.versionExit ∧
      (parseOptions c8Env).stdin.content = c8Env.stdinContent ∧
      (parseOptions c8Env).stdin.reads = 0 ∧
      (parseOptions c8Env).trace =
        [Event.probedStdin c8Env.stdinAvail, Event.printedVersion] ∧
      (∀ o, Event.validated o ∉ (parseOptions c8Env).trace) ∧
      Event.drainedStdin ∉ (parseOptions c8Env).trace ∧
      Event.readStdin ∉ (parseOptions c8Env).trace) :=
  ⟨rfl, C8_version_exits_first c8Env rfl⟩

/-! Claim C9. -/

/-- Claim C9: configuration resolution is deterministic — two runs on the
same flag set, the same stdin-availability probe and the same captured
stdin bytes produce identical run results; in particular any two returned
configurations are equal in every field. -/
theorem C9_deterministic (e1 e2 : Env)
    (hf : e1.flags = e2.flags) (ha : e1.stdinAvail = e2.stdinAvail)
    (hc : e1.stdinContent = e2.stdinContent) :
    parseOptions e1 = parseOptions e2 ∧
    ∀ o1 o2, (parseOptions e1).result = ParseResult.ok o1 →
      (parseOptions e2).result = ParseResult.ok o2 → o1 = o2 := by
  have he : e1 = e2 := by
    cases e1
    cases e2
    simp_all
  subst he
  refine ⟨rfl, ?_⟩
  intro o1 o2 h1 h2
  rw [h1] at h2
  exact ParseResult.ok.inj h2

/-- Environment for the C9 witness. -/
def c9Env : Env where
  flags := { defaultOptions with Wordlist := "wordlist.txt" }
  stdinAvail := true
  stdinContent := "example.com"

/-- Witness for C9 at a concrete input. -/
theorem C9_deterministic_witness :
    (c9Env.flags = c9Env.flags ∧ c9Env.stdinAvail = c9Env.stdinAvail ∧
      c9Env.stdinContent = c9Env.stdinContent) ∧
    (parseOptions c9Env = parseOptions c9Env ∧
      ∀ o1 o2, (parseOptions c9Env).result = ParseResult.ok o1 →
        (parseOptions c9Env).result = ParseResult.ok o2 → o1 = o2) :=
  ⟨⟨rfl, rfl, rfl⟩, C9_deterministic c9Env c9Env rfl rfl rfl⟩

end Shuffledns
